import Mathlib

/-!
Verification development for the UAM decision/validation engine
(`src/agents/decision_engine.py` together with the threshold constants of
`src/config.py`).

The engine is shallowly embedded: Python strings become `List Char`,
Python `None`-able fields become `Option (List Char)`, floats become `ℚ`,
and the external collaborators (rule database, Excel row extraction, the
LLM reasoning service, the reasoning enhancer) become explicit parameters.
Each definition is a direct translation of the corresponding source
function; deviations forced by the host language are noted in comments.
-/

/-! ## String primitives (Python string operations over `List Char`) -/

/-- Lowercasing, as Python `str.lower` restricted to ASCII (which is also
what `Char.toLower` implements).  The source lowercases some values twice
(e.g. completed trainings at lines 402 and 427); lowercasing is idempotent,
so the embedding applies it once at the first point. -/
def lowerL (s : List Char) : List Char := s.map Char.toLower

/-- Python `str.strip`: drop whitespace from both ends. -/
def stripL (s : List Char) : List Char :=
  (s.dropWhile Char.isWhitespace).reverse.dropWhile Char.isWhitespace |>.reverse

/-- `isPrefixL needle hay` : does `hay` start with `needle`. -/
def isPrefixL : List Char → List Char → Bool
  | [], _ => true
  | _ :: _, [] => false
  | n :: ns, h :: hs => n = h && isPrefixL ns hs

/-- Python `needle in hay` (substring containment). -/
def inStr (needle : List Char) : List Char → Bool
  | [] => needle.isEmpty
  | h :: t => isPrefixL needle (h :: t) || inStr needle t

/-- Python `str.split()` (split on whitespace runs, discarding empties). -/
def splitWS (s : List Char) : List (List Char) :=
  go s []
where
  go : List Char → List Char → List (List Char)
    | [], acc => if acc.isEmpty then [] else [acc.reverse]
    | c :: rest, acc =>
      if c.isWhitespace then
        if acc.isEmpty then go rest [] else acc.reverse :: go rest []
      else go rest (c :: acc)

/-- Python `str.split(sep)` for a one-character separator: keeps empty
segments and always returns one more segment than separators. -/
def splitOnChar (sep : Char) (s : List Char) : List (List Char) :=
  go s []
where
  go : List Char → List Char → List (List Char)
    | [], acc => [acc.reverse]
    | c :: rest, acc =>
      if c = sep then acc.reverse :: go rest [] else go rest (c :: acc)

/-- Python `str.replace(pat, "")`: remove every (left-to-right,
non-overlapping) occurrence of `pat`. -/
def removeAllOcc (pat : List Char) : List Char → List Char
  | [] => []
  | h :: t =>
    if pat ≠ [] ∧ isPrefixL pat (h :: t) then
      removeAllOcc pat (t.drop (pat.length - 1))
    else h :: removeAllOcc pat t
  termination_by l => l.length
  decreasing_by
    · simp only [List.length_drop, List.length_cons]; omega
    · simp only [List.length_cons]; omega

/-- Join a list of strings with a separator (used for issue/reason text). -/
def joinSep (sep : List Char) : List (List Char) → List Char
  | [] => []
  | [x] => x
  | x :: y :: rest => x ++ sep ++ joinSep sep (y :: rest)

/-- Python falsiness of an optional string: `None` and `""` are falsy. -/
def optTruthy : Option (List Char) → Bool
  | none => false
  | some s => !s.isEmpty

/-- `x if x else ""` for optional strings. -/
def optStr : Option (List Char) → List Char
  | none => []
  | some s => s

/-! ## Data model -/

/-- `database.models.PermissionRule` (the fields the engine reads). -/
structure PermissionRule where
  permission_name : List Char
  permission_type : List Char
  priority_level : Option (List Char)
  auto_grant_enabled : Bool
  pre_requisites : List (List Char)
  deriving DecidableEq, Repr

/-- A user-context snapshot, flattening the `context_data` sub-dictionary
(`employee_type`, `security_clearance_level`, `completed_trainings`) into
the record, as the engine reads them. `current_permissions` keeps only the
keys of the Python dict (the engine tests only its truthiness/size). -/
structure UserContext where
  user_id : List Char
  department : Option (List Char)
  role : Option (List Char)
  employee_type : Option (List Char)
  security_clearance_level : Int
  completed_trainings : List (List Char)
  current_permissions : List (List Char)
  deriving DecidableEq, Repr

/-- One extracted master-tracker row
(`DecisionEngine._extract_master_tracker_row_context` row dictionary). -/
structure ConfigurationRow where
  role : Option (List Char)
  application : Option (List Char)
  training_required : Option (List Char)
  approval_required : Option (List Char)
  exception_scenario : Option (List Char)
  notes : Option (List Char)
  access_level : Option (List Char)
  environment : Option (List Char)
  authorizing_manager : Option (List Char)
  row_index : Nat
  match_score : Nat
  deriving DecidableEq, Repr

/-- Result record of `_validate_row_against_user_context`. -/
structure ValidationResult where
  is_valid : Bool
  validation_issues : List (List Char)
  training_match : Bool
  exception_violated : Bool
  all_fields_match : Bool
  deriving DecidableEq, Repr

/-- A `(decision, reasoning, confidence)` triple as returned by
`_make_decision` and its helpers. -/
structure DecisionOut where
  decision : List Char
  reasoning : List Char
  confidence : ℚ
  deriving DecidableEq, Repr

/-- The parsed reasoning-service (LLM) JSON response used by
`_make_ai_decision`; absent JSON keys are `none`. -/
structure AIResponse where
  decision : Option (List Char)
  reasoning : Option (List Char)
  confidence : Option ℚ
  missing_info : List (List Char)
  deriving DecidableEq, Repr

/-- The dictionary returned by `evaluate_request` (fields the spec
constrains; the database row id is omitted). -/
structure EvalResult where
  decision : List Char
  priority_score : ℚ
  pre_requisites_status : List (List Char × Bool)
  reasoning : List Char
  confidence : ℚ
  similar_requests_count : Nat
  deriving DecidableEq, Repr

/-- `config.AUTO_GRANT_THRESHOLD` (default configuration value 80). -/
def AUTO_GRANT_THRESHOLD : ℚ := 80

/-- `config.REQUIRE_APPROVAL_THRESHOLD` (default configuration value 50). -/
def REQUIRE_APPROVAL_THRESHOLD : ℚ := 50

/-! ## PrerequisiteEvaluator: `DecisionEngine._check_pre_requisites` -/

/-- Insertion into a Python dict modelled as an insertion-ordered
association list: an existing key is overwritten in place. -/
def dictInsert (k : List Char) (v : Bool) : List (List Char × Bool) → List (List Char × Bool)
  | [] => [(k, v)]
  | (k', v') :: rest =>
    if k' = k then (k', v) :: rest else (k', v') :: dictInsert k v rest

/-- Models Python `str(user_context).lower()` used by the generic fallback
branch: a lowered serialization containing every key and value of the
context dictionary. -/
def serializeCtx (ctx : UserContext) : List Char :=
  lowerL ("user_id: ".data ++ ctx.user_id
    ++ ", department: ".data ++ optStr ctx.department
    ++ ", role: ".data ++ optStr ctx.role
    ++ ", employee_type: ".data ++ optStr ctx.employee_type
    ++ ", completed_trainings: ".data ++ joinSep ", ".data ctx.completed_trainings
    ++ ", current_permissions: ".data ++ joinSep ", ".data ctx.current_permissions)

/-- `_check_pre_requisites` (decision_engine.py lines 118-173): classify
each phrase by keyword, first matching category wins; empty phrases are
skipped; results accumulate into an insertion-ordered dict.  The
per-phrase `details` strings are not modelled (no claim constrains them). -/
def checkPreRequisites (preReqs : List (List Char)) (ctx : UserContext) :
    List (List Char × Bool) :=
  preReqs.foldl (fun status preReq =>
    if preReq = [] then status
    else
      let pl := lowerL preReq
      let met : Bool :=
        if inStr "valid employee id".data pl || inStr "employee id".data pl then
          !ctx.user_id.isEmpty
        else if inStr "department".data pl then optTruthy ctx.department
        else if inStr "manager approval".data pl || inStr "approval".data pl then
          false
        else if inStr "security".data pl && inStr "clearance".data pl then
          decide (2 ≤ ctx.security_clearance_level)
        else if inStr "training".data pl then
          let completed := ctx.completed_trainings.filter (· ≠ [])
          let trainingType := stripL (removeAllOcc "training".data pl)
          if trainingType ≠ [] ∧ completed ≠ [] then
            completed.any (fun t => inStr trainingType (lowerL t))
          else decide (0 < completed.length)
        else if inStr "role".data pl then optTruthy ctx.role
        else inStr pl (serializeCtx ctx)
      dictInsert preReq met status) []

/-! ## ScoringPolicy: `DecisionEngine._calculate_priority_score` -/

/-- Number of prerequisite entries whose `met` flag is set. -/
def metCount (status : List (List Char × Bool)) : Nat :=
  (status.filter (·.2)).length

/-- The clamp of line 207: `max(0, min(100, score))`. -/
def clamp0100 (q : ℚ) : ℚ := max 0 (min 100 q)

/-- Python `round(x, 2)` modelled over `ℚ` (round to nearest hundredth;
the tie-breaking convention cannot matter to any claim because the same
rounding is used on both sides of every equation). -/
def round2 (q : ℚ) : ℚ := (round (100 * q) : ℤ) / 100

/-- Effective priority level (line 194):
`rule.priority_level.lower() if rule.priority_level else "medium"`. -/
def priorityLevelEff (rule : PermissionRule) : List Char :=
  match rule.priority_level with
  | none => "medium".data
  | some s => if s = [] then "medium".data else lowerL s

/-- `_calculate_priority_score` (lines 175-209). -/
def calculatePriorityScore (rule : PermissionRule) (ctx : UserContext)
    (status : List (List Char × Bool)) : ℚ :=
  let score : ℚ := 50
  let total := status.length
  let met := metCount status
  let score :=
    if 0 < total then score + ((met : ℚ) / (total : ℚ)) * 30 else score
  let pl := priorityLevelEff rule
  let score := score +
    (if pl = "high".data then 20 else if pl = "medium".data then 10
     else if pl = "low".data then 0 else 0)
  let score := if ctx.current_permissions ≠ [] then score + 10 else score
  let score := if rule.auto_grant_enabled then score + 10 else score
  round2 (clamp0100 score)

/-! ## RowValidator: `DecisionEngine._validate_row_against_user_context` -/

/-- Lowered completed trainings with empties dropped (line 402). -/
def effCompletedTrainings (ctx : UserContext) : List (List Char) :=
  (ctx.completed_trainings.filter (· ≠ [])).map lowerL

/-- `(user_context.get('department') or '').lower()` (line 403). -/
def effDepartment (ctx : UserContext) : List Char := lowerL (optStr ctx.department)

/-- `(context_data.get('employee_type') or 'Full-time').lower()` (line 404). -/
def effEmployeeType (ctx : UserContext) : List Char :=
  lowerL (if optTruthy ctx.employee_type then optStr ctx.employee_type
          else "Full-time".data)

/-- `(user_context.get('role') or '').lower()` (line 405). -/
def effUserRole (ctx : UserContext) : List Char := lowerL (optStr ctx.role)

/-- The row's required training after the truthiness/strip normalisation of
lines 409-410: `str(raw).strip() if raw else ''`. -/
def trainingRequiredEff (row : ConfigurationRow) : List Char :=
  if optTruthy row.training_required then stripL (optStr row.training_required)
  else []

/-- Line 411 presence test: non-empty and, lowered, not one of
`'nan' / 'none' / ''`. -/
def trainingPresentB (row : ConfigurationRow) : Bool :=
  let t := trainingRequiredEff row
  !t.isEmpty && !(lowerL t = "nan".data || lowerL t = "none".data || lowerL t = [])

/-- "Significant" words of a training phrase (lines 437-438): words of
length > 3 that are not one of the generic terms, as a Python `set`
(modelled by `dedup`, keeping first occurrences). -/
def sigTrainingWords (s : List Char) : List (List Char) :=
  ((splitWS s).filter (fun w =>
    3 < w.length ∧ w ∉ ["training".data, "course".data, "certification".data])).dedup

/-- One iteration of the training-match loop (lines 426-448): exact
equality, substring either way, ≥2 shared significant words, or
required-significant-words ⊆ user-significant-words (the last two only
when both significant-word sets are non-empty). -/
def trainingMatchOne (requiredLower userTraining : List Char) : Bool :=
  requiredLower = userTraining
  || inStr requiredLower userTraining || inStr userTraining requiredLower
  || (let rw := sigTrainingWords requiredLower
      let uw := sigTrainingWords userTraining
      !rw.isEmpty && !uw.isEmpty &&
        (decide (2 ≤ (rw.filter (· ∈ uw)).length) || rw.all (· ∈ uw)))

/-- The row's exception scenario after the normalisation of lines 461-462. -/
def exceptionScenarioEff (row : ConfigurationRow) : List Char :=
  if optTruthy row.exception_scenario then stripL (optStr row.exception_scenario)
  else []

/-- Line 463 presence test for the exception scenario. -/
def exceptionPresentB (row : ConfigurationRow) : Bool :=
  let e := exceptionScenarioEff row
  !e.isEmpty && !(lowerL e = "nan".data || lowerL e = "none".data || lowerL e = [])

/-- The row's role after the normalisation of line 502. -/
def requiredRoleEff (row : ConfigurationRow) : List Char :=
  if optTruthy row.role
      && !(lowerL (optStr row.role) = "nan".data
           || lowerL (optStr row.role) = "none".data
           || lowerL (optStr row.role) = []) then
    lowerL (stripL (optStr row.role))
  else []

/-- `_validate_row_against_user_context` (lines 384-514).  The record is
built functionally: `is_valid` is the conjunction of the mandatory checks,
`validation_issues` collects the issue strings in source order (their text
keeps the source's leading tags and interpolated fields, with quoting
punctuation elided). -/
def validateRowAgainstUserContext (row : ConfigurationRow) (ctx : UserContext) :
    ValidationResult :=
  let completed := effCompletedTrainings ctx
  let userDepartment := effDepartment ctx
  let employeeType := effEmployeeType ctx
  let userRole := effUserRole ctx
  -- 1. training (mandatory)
  let requiredTraining := trainingRequiredEff row
  let tPresent := trainingPresentB row
  let tMatch :=
    tPresent && !completed.isEmpty
      && completed.any (trainingMatchOne (lowerL requiredTraining))
  let tFail := tPresent && !tMatch
  let trainingIssues : List (List Char) :=
    if tPresent then
      if completed.isEmpty then
        ["REQUIRED TRAINING NOT COMPLETED: Role requires ".data ++ requiredTraining
          ++ " but user has completed NO TRAININGS.".data]
      else if !tMatch then
        ["REQUIRED TRAINING MISMATCH: Role requires ".data ++ requiredTraining
          ++ " but user has completed: ".data
          ++ joinSep ", ".data ctx.completed_trainings]
      else []
    else []
  -- 2. exception scenarios (mandatory); the four keyword checks are
  -- independent `if`s in the source, evaluated in this order
  let excLower := lowerL (exceptionScenarioEff row)
  let ePresent := exceptionPresentB row
  let trContractor := ePresent && inStr "contractor".data excLower
    && (inStr "contractor".data employeeType || inStr "external".data employeeType)
  let trIntern := ePresent && inStr "intern".data excLower
    && inStr "intern".data employeeType
  let trExternal := ePresent && inStr "external".data excLower
    && (inStr "external".data employeeType || inStr "contractor".data employeeType)
  let trNonFinance := ePresent && inStr "non finance".data excLower
    && !inStr "finance".data userDepartment
  let excViolated := trContractor || trIntern || trExternal || trNonFinance
  let excIssues : List (List Char) :=
    (if trContractor then
      ["EXCEPTION VIOLATION: ".data ++ exceptionScenarioEff row] else [])
    ++ (if trIntern then
      ["EXCEPTION VIOLATION: ".data ++ exceptionScenarioEff row] else [])
    ++ (if trExternal then
      ["EXCEPTION VIOLATION: ".data ++ exceptionScenarioEff row] else [])
    ++ (if trNonFinance then
      ["EXCEPTION VIOLATION: ".data ++ exceptionScenarioEff row] else [])
  -- 3. role match (soft: issue only, never flips is_valid)
  let requiredRole := requiredRoleEff row
  let roleIssues : List (List Char) :=
    if !requiredRole.isEmpty && !userRole.isEmpty
        && !(inStr requiredRole userRole || inStr userRole requiredRole)
        && (((splitWS requiredRole).filter (fun w => 3 < w.length)).dedup.filter
              (· ∈ ((splitWS userRole).filter (fun w => 3 < w.length)).dedup)).isEmpty
    then ["ROLE MISMATCH: Required role is ".data ++ optStr row.role
           ++ " but user role is ".data ++ optStr ctx.role]
    else []
  { is_valid := !(tFail || excViolated)
    validation_issues := trainingIssues ++ excIssues ++ roleIssues
    training_match := tMatch
    exception_violated := excViolated
    all_fields_match := !tFail }

/-! ## RowMatcher best-row selection and the mandatory-validation
short-circuit: `DecisionEngine._check_master_tracker_validation` -/

/-- Row role as normalised at line 683:
`str(row.get('role','')).lower().strip() if row.get('role') else ''`. -/
def rowRoleStr (row : ConfigurationRow) : List Char :=
  if optTruthy row.role then stripL (lowerL (optStr row.role)) else []

/-- Row application as normalised at line 684. -/
def rowAppStr (row : ConfigurationRow) : List Char :=
  if optTruthy row.application then stripL (lowerL (optStr row.application)) else []

/-- Role match of lines 688-690: exact equality, or containment either way
when both strings are non-empty. -/
def roleMatchesB (targetRole : List Char) (row : ConfigurationRow) : Bool :=
  let rr := rowRoleStr row
  targetRole = rr
  || (if !targetRole.isEmpty && !rr.isEmpty then
        inStr targetRole rr || inStr rr targetRole
      else false)

/-- Application match of lines 693-695; when no application was requested
the row is not filtered (`app_matches = True`). -/
def appMatchesB (requestedApp : List Char) (row : ConfigurationRow) : Bool :=
  let ra := rowAppStr row
  if !requestedApp.isEmpty then
    requestedApp = ra
    || (if !requestedApp.isEmpty && !ra.isEmpty then
          inStr requestedApp ra || inStr ra requestedApp
        else false)
  else true

/-- Combined score of lines 697-706: extraction `match_score` plus +10 for
an exact role match else +5 for a partial one, and likewise for the
application (the application bonus is computed even when no application
was requested, exactly as in the source). -/
def combinedScore (targetRole requestedApp : List Char) (row : ConfigurationRow) : ℤ :=
  let rr := rowRoleStr row
  let ra := rowAppStr row
  let roleBonus : ℤ :=
    if targetRole = rr then 10
    else if (if !targetRole.isEmpty && !rr.isEmpty then
               inStr targetRole rr || inStr rr targetRole
             else false) then 5
    else 0
  let appBonus : ℤ :=
    if requestedApp = ra then 10
    else if (if !requestedApp.isEmpty && !ra.isEmpty then
               inStr requestedApp ra || inStr ra requestedApp
             else false) then 5
    else 0
  (row.match_score : ℤ) + roleBonus + appBonus

/-- The selection loop of lines 679-715, threading
`(best_matching_row, best_match_score)` initialised to `(None, -1)`. -/
def selectBestAux (targetRole requestedApp : List Char) :
    List ConfigurationRow → Option ConfigurationRow → ℤ → Option ConfigurationRow
  | [], best, _ => best
  | row :: rest, best, bestScore =>
    let cs := combinedScore targetRole requestedApp row
    if roleMatchesB targetRole row = true ∧ appMatchesB requestedApp row = true
        ∧ bestScore < cs then
      selectBestAux targetRole requestedApp rest (some row) cs
    else if best.isNone = true ∧ roleMatchesB targetRole row = true
        ∧ bestScore < cs then
      selectBestAux targetRole requestedApp rest (some row) cs
    else selectBestAux targetRole requestedApp rest best bestScore

/-- Lines 679-719: run the selection loop, then fall back to the first
extracted row (the highest original `match_score`, as extraction sorts
descending) when the loop selected nothing. -/
def selectBestRow (targetRole requestedApp : List Char)
    (rows : List ConfigurationRow) : Option ConfigurationRow :=
  match selectBestAux targetRole requestedApp rows none (-1) with
  | some r => some r
  | none => rows.head?

/-- Target role of lines 666-676: the user's own (stripped, lowered) role
when present, else the second hyphen-delimited segment of the requested
permission. -/
def targetRoleOf (requestedPermission : List Char) (ctx : UserContext) : List Char :=
  let userRole :=
    if optTruthy ctx.role then lowerL (stripL (optStr ctx.role)) else []
  let parts :=
    if requestedPermission ≠ [] then
      (splitOnChar '-' requestedPermission).map stripL
    else []
  let requestedRole := match parts with
    | _ :: q :: _ => lowerL q
    | _ => []
  if !userRole.isEmpty then userRole else requestedRole

/-- Requested application of lines 671-672: the first hyphen-delimited
segment of the requested permission, stripped and lowered. -/
def requestedAppOf (requestedPermission : List Char) : List Char :=
  let parts :=
    if requestedPermission ≠ [] then
      (splitOnChar '-' requestedPermission).map stripL
    else []
  match parts with
  | p :: _ => lowerL p
  | [] => []

/-- The best-matching row a request selects among the extracted rows
(lines 664-719). -/
def bestMatchingRow (requestedPermission : List Char) (ctx : UserContext)
    (rows : List ConfigurationRow) : Option ConfigurationRow :=
  selectBestRow (targetRoleOf requestedPermission ctx)
    (requestedAppOf requestedPermission) rows

/-- The critical rejection reasons collected for the best row
(lines 727-749): a required-but-unmatched training first, then an
exception violation.  `must_reject` in the source is set exactly when this
list is non-empty. -/
def criticalReasons (row : ConfigurationRow) (ctx : UserContext) : List (List Char) :=
  let validation := validateRowAgainstUserContext row ctx
  (if trainingPresentB row && !validation.training_match then
    ["Required training ".data ++ trainingRequiredEff row
      ++ " has not been completed. User has completed: ".data
      ++ (if ctx.completed_trainings ≠ [] then
            joinSep ", ".data ctx.completed_trainings
          else "no trainings".data)
      ++ ". Access cannot be granted without the required training.".data]
   else [])
  ++ (if validation.exception_violated then
    ["EXCEPTION VIOLATION: ".data
      ++ (if row.exception_scenario.isSome then exceptionScenarioEff row
          else "N/A".data)]
   else [])

/-- `_check_master_tracker_validation` (lines 632-763) given the extracted
candidate rows: `none` when validation passes (including when no rows were
extracted), otherwise the mandatory rejection with confidence 0.95 and the
first critical reason.  The enhanced permission built at lines 643-655
feeds only the row extraction, which is the `rows` parameter here; the
role/application parsing of lines 664-676 uses the original
`requested_permission`, as in the source. -/
def checkMasterTrackerValidation (requestedPermission : List Char)
    (ctx : UserContext) (rows : List ConfigurationRow) : Option DecisionOut :=
  if rows = [] then none
  else
    match bestMatchingRow requestedPermission ctx rows with
    | none => none
    | some row =>
      match criticalReasons row ctx with
      | [] => none
      | reason :: _ => some ⟨"reject".data, reason, 95 / 100⟩

/-! ## DecisionPolicy: threshold fallback, reasoning-service delegation and
the short-circuit wiring -/

/-- The threshold branch of `_make_rule_based_decision` (lines 1029-1045):
`(decision, confidence, reasoning part)`. -/
def thresholdCore (rule : PermissionRule) (priorityScore : ℚ)
    (status : List (List Char × Bool)) : List Char × ℚ × List Char :=
  let met := metCount status
  let total := status.length
  if AUTO_GRANT_THRESHOLD ≤ priorityScore ∧ rule.auto_grant_enabled = true then
    if ((total : ℚ) * (8 / 10) ≤ (met : ℚ)) then
      ("grant".data, 85 / 100,
        "High priority score and most pre-requisites met".data)
    else
      ("create_ticket".data, 7 / 10,
        "High priority but missing pre-requisites".data)
  else if REQUIRE_APPROVAL_THRESHOLD ≤ priorityScore then
    ("create_ticket".data, 75 / 100, "Moderate priority requires review".data)
  else
    ("create_ticket".data, 8 / 10, "Low priority score requires manual review".data)

/-- `_make_rule_based_decision` (lines 1017-1066): the threshold branch,
the historical adjustment (strictly more than 70 % of similar requests
auto-granted adds 0.1 to grant confidences), the final `min 1` cap, and
the optional reasoning enhancement (`aiEnhanced` models the enhancer's
return value; a falsy value keeps the base reasoning).  Numeric
interpolation inside reasoning strings is elided. -/
def makeRuleBasedDecision (rule : PermissionRule) (priorityScore : ℚ)
    (status : List (List Char × Bool)) (similarAutoGranted : List Bool)
    (aiEnhanced : Option (List Char)) : DecisionOut :=
  let core := thresholdCore rule priorityScore status
  let decision := core.1
  let confidence := core.2.1
  let autoGrantedCount := (similarAutoGranted.filter (· = true)).length
  let historic := similarAutoGranted ≠ [] ∧
    ((similarAutoGranted.length : ℚ) * (7 / 10) < (autoGrantedCount : ℚ))
  let confidence :=
    if historic ∧ decision = "grant".data then confidence + 1 / 10 else confidence
  let reasoningParts :=
    [core.2.2] ++ (if historic then
      ["Similar requests historically auto-granted".data] else [])
  let baseReasoning := joinSep ". ".data reasoningParts
  let confidence := min 1 confidence
  let finalReasoning :=
    if optTruthy aiEnhanced then optStr aiEnhanced else baseReasoning
  ⟨decision, finalReasoning, confidence⟩

/-- `_make_ai_decision` (lines 765-1015) with the prompt construction and
transport abstracted into the parsed response: `none` models every failure
path (no client, transport error, malformed JSON), which falls back to the
rule-based decision; a parsed response is passed through with only the
defaulting and confidence clamping of lines 999-1009 — the decision string
itself is NOT validated against the four outcomes. -/
def makeAiDecision (response : Option AIResponse) (rule : PermissionRule)
    (priorityScore : ℚ) (status : List (List Char × Bool))
    (similarAutoGranted : List Bool) (aiEnhanced : Option (List Char)) :
    DecisionOut :=
  match response with
  | none =>
    makeRuleBasedDecision rule priorityScore status similarAutoGranted aiEnhanced
  | some resp =>
    let decision := resp.decision.getD "create_ticket".data
    let reasoning := resp.reasoning.getD "AI decision made".data
    let confidence := resp.confidence.getD (7 / 10)
    let reasoning :=
      if decision = "ask_for_more_info".data then
        reasoning ++ " Missing Information Required: ".data
          ++ joinSep ", ".data resp.missing_info
      else reasoning
    ⟨decision, reasoning, min 1 (max 0 confidence)⟩

/-- `_make_decision` (lines 211-236): the mandatory master-tracker
short-circuit always runs first; only when it passes is the decision
delegated to the reasoning service (`useAI` models
`self.ai_enhancer and USE_AI_REASONING`) or the threshold fallback. -/
def makeDecision (useAI : Bool) (aiResponse : Option AIResponse)
    (rows : List ConfigurationRow) (rule : PermissionRule)
    (priorityScore : ℚ) (status : List (List Char × Bool)) (ctx : UserContext)
    (similarAutoGranted : List Bool) (requestedPermission : List Char)
    (aiEnhanced : Option (List Char)) : DecisionOut :=
  match checkMasterTrackerValidation requestedPermission ctx rows with
  | some rejection => rejection
  | none =>
    if useAI then
      makeAiDecision aiResponse rule priorityScore status similarAutoGranted
        aiEnhanced
    else
      makeRuleBasedDecision rule priorityScore status similarAutoGranted
        aiEnhanced

/-- The contextual-understanding annotation extracted by the LLM
(`_understand_request_context`); only the two fields `evaluate_request`
reads are modelled. -/
structure ContextualUnderstanding where
  extracted_role : Option (List Char)
  extracted_application : Option (List Char)
  deriving DecidableEq, Repr

/-- `evaluate_request` (lines 20-101) with the external collaborators as
parameters: `contextual` is the LLM intent extraction, `ruleLookup` the
database rule query result (lines 62-71 synthesise a default rule when it
is `None`), `rows` the extracted master-tracker candidates, and
`similarAutoGranted` the `auto_granted` flags of similar past requests. -/
def evaluateRequest (ctx : UserContext) (requestType requestedPermission : List Char)
    (contextual : Option ContextualUnderstanding)
    (ruleLookup : Option PermissionRule) (rows : List ConfigurationRow)
    (similarAutoGranted : List Bool) (useAI : Bool)
    (aiResponse : Option AIResponse) (aiEnhanced : Option (List Char)) :
    EvalResult :=
  -- lines 44-51: enhance the user context and the requested permission
  let ctx :=
    match contextual with
    | some cu =>
      if optTruthy cu.extracted_role && !optTruthy ctx.role then
        { ctx with role := cu.extracted_role }
      else ctx
    | none => ctx
  let requestedPermission :=
    match contextual with
    | some cu =>
      if optTruthy cu.extracted_application && requestedPermission ≠ [] then
        if !inStr (lowerL (optStr cu.extracted_application))
            (lowerL requestedPermission) then
          optStr cu.extracted_application ++ " - ".data ++ requestedPermission
        else requestedPermission
      else requestedPermission
    | none => requestedPermission
  -- lines 59-71: rule lookup with synthetic default
  let rule := ruleLookup.getD
    { permission_name := requestedPermission
      permission_type := requestType
      priority_level := some "medium".data
      auto_grant_enabled := false
      pre_requisites := [] }
  let status := checkPreRequisites rule.pre_requisites ctx
  let priorityScore := calculatePriorityScore rule ctx status
  let d := makeDecision useAI aiResponse rows rule priorityScore status ctx
    similarAutoGranted requestedPermission aiEnhanced
  { decision := d.decision
    priority_score := priorityScore
    pre_requisites_status := status
    reasoning := d.reasoning
    confidence := d.confidence
    similar_requests_count := similarAutoGranted.length }

/-! ## Helper lemmas -/

/-- The prerequisite-satisfaction ratio as the spec states it: `0` when
there are no prerequisites, else fraction met. -/
def metRatio (status : List (List Char × Bool)) : ℚ :=
  if status.length = 0 then 0 else (metCount status : ℚ) / (status.length : ℚ)

/-- The three context/rule bonuses of `_calculate_priority_score`. -/
def scoreBonus (rule : PermissionRule) (ctx : UserContext) : ℚ :=
  (if priorityLevelEff rule = "high".data then 20
   else if priorityLevelEff rule = "medium".data then 10
   else if priorityLevelEff rule = "low".data then 0 else 0)
  + (if ctx.current_permissions ≠ [] then 10 else 0)
  + (if rule.auto_grant_enabled then 10 else 0)

/-- The four outcome strings the spec allows a Decision to carry. -/
def fourOutcomes : List (List Char) :=
  ["grant".data, "create_ticket".data, "reject".data, "ask_for_more_info".data]

/-- Modelled from the words of claim C5: "significant" words of length
strictly greater than 4 (the source uses length > 3). -/
def sigTrainingWordsSpec (s : List Char) : List (List Char) :=
  ((splitWS s).filter (fun w =>
    4 < w.length ∧ w ∉ ["training".data, "course".data, "certification".data])).dedup

/-- Modelled from the words of claim C5: the training-match predicate with
significant words of length > 4 and an unguarded subset clause. -/
def trainingMatchClaimC5 (required : List Char) (completedRaw : List (List Char)) : Bool :=
  let completed := (completedRaw.filter (· ≠ [])).map lowerL
  let req := lowerL required
  completed.any fun u =>
    req = u || inStr req u || inStr u req
    || decide (2 ≤ ((sigTrainingWordsSpec req).filter (· ∈ sigTrainingWordsSpec u)).length)
    || (sigTrainingWordsSpec req).all (· ∈ sigTrainingWordsSpec u)

/-- The training-match predicate the source actually implements (claim C5
amended): significant words of length > 3, word clauses only when both
significant-word sets are non-empty, no completed trainings never match. -/
def trainingMatchAmended (required : List Char) (completedRaw : List (List Char)) : Bool :=
  let completed := (completedRaw.filter (· ≠ [])).map lowerL
  let req := lowerL required
  completed.any fun u =>
    req = u || inStr req u || inStr u req
    || (let rw := sigTrainingWords req
        let uw := sigTrainingWords u
        !rw.isEmpty && !uw.isEmpty &&
          (decide (2 ≤ (rw.filter (· ∈ uw)).length) || rw.all (· ∈ uw)))

/-- Modelled from the words of claim C6: a department carve-out of the form
"non <department>" fires when the user department does not contain that
department. -/
def specNonDeptTrigger (scenarioLower dept : List Char) : Prop :=
  ∃ d : List Char, d ≠ [] ∧ inStr ("non ".data ++ d) scenarioLower = true
    ∧ inStr d dept = false

/-- Both role and application match (claim C7). -/
def bothMatchesB (targetRole requestedApp : List Char) (row : ConfigurationRow) : Bool :=
  roleMatchesB targetRole row && appMatchesB requestedApp row

/-- The rows the selection loop can ever adopt (claim C7 amended): the
first role-matching row together with every row matching both role and
application. -/
def candidatesOf (targetRole requestedApp : List Char)
    (rows : List ConfigurationRow) : List ConfigurationRow :=
  match rows.find? (fun r => roleMatchesB targetRole r) with
  | none => []
  | some r0 =>
    if bothMatchesB targetRole requestedApp r0 then
      rows.filter (fun r => bothMatchesB targetRole requestedApp r)
    else r0 :: rows.filter (fun r => bothMatchesB targetRole requestedApp r)

/-- Earliest element attaining the maximal value of `f`, scanning with a
strict-improvement fold seeded by an initial element. -/
def firstMaxAux (f : ConfigurationRow → ℤ) :
    List ConfigurationRow → ConfigurationRow → ℤ → ConfigurationRow
  | [], best, _ => best
  | r :: rest, best, bs =>
    if bs < f r then firstMaxAux f rest r (f r) else firstMaxAux f rest best bs

/-! ## Concrete fixtures used by witnesses and counterexamples -/

/-- A master-tracker row with every optional field absent. -/
def rowBase : ConfigurationRow :=
  { role := none, application := none, training_required := none,
    approval_required := none, exception_scenario := none, notes := none,
    access_level := none, environment := none, authorizing_manager := none,
    row_index := 1, match_score := 0 }

/-- A minimal user-context snapshot. -/
def ctxBase : UserContext :=
  { user_id := "u1".data, department := none, role := none,
    employee_type := none, security_clearance_level := 0,
    completed_trainings := [], current_permissions := [] }

/-- A high-priority auto-grantable rule with no prerequisites. -/
def ruleHigh : PermissionRule :=
  { permission_name := "p".data, permission_type := "t".data,
    priority_level := some "high".data, auto_grant_enabled := true,
    pre_requisites := [] }

lemma calculatePriorityScore_eq (rule : PermissionRule) (ctx : UserContext)
    (status : List (List Char × Bool)) :
    calculatePriorityScore rule ctx status =
      round2 (clamp0100 (50 + 30 * metRatio status + scoreBonus rule ctx)) := by
  simp only [calculatePriorityScore, metRatio, scoreBonus]
  rcases Nat.eq_zero_or_pos status.length with h | h
  · simp only [h, if_pos rfl, if_neg (lt_irrefl 0)]
    split_ifs <;> ring_nf
  · simp only [if_pos h, if_neg (Nat.pos_iff_ne_zero.mp h)]
    split_ifs <;> ring_nf

lemma round_mono {x y : ℚ} (h : x ≤ y) : round x ≤ round y := by
  rw [round_eq, round_eq]
  exact Int.floor_le_floor (by linarith)

lemma round2_mono {x y : ℚ} (h : x ≤ y) : round2 x ≤ round2 y := by
  unfold round2
  have h := round_mono (by linarith : 100 * x ≤ 100 * y)
  have h2 : ((round (100 * x) : ℤ) : ℚ) ≤ ((round (100 * y) : ℤ) : ℚ) := by
    exact_mod_cast h
  linarith

lemma clamp0100_mono {x y : ℚ} (h : x ≤ y) : clamp0100 x ≤ clamp0100 y :=
  max_le_max le_rfl (min_le_min le_rfl h)

lemma clamp0100_bounds (x : ℚ) : 0 ≤ clamp0100 x ∧ clamp0100 x ≤ 100 :=
  ⟨le_max_left 0 _, max_le (by norm_num) (min_le_left 100 x)⟩

lemma round2_bounds {x : ℚ} (h0 : 0 ≤ x) (h1 : x ≤ 100) :
    0 ≤ round2 x ∧ round2 x ≤ 100 := by
  have hl : (0 : ℤ) ≤ round (100 * x) := by
    have h := round_mono (show (0 : ℚ) ≤ 100 * x by linarith)
    simpa using h
  have h3 : round ((10000 : ℚ)) = (10000 : ℤ) := by simp
  have hu : round (100 * x) ≤ (10000 : ℤ) := by
    have h := round_mono (show (100 : ℚ) * x ≤ 10000 by linarith)
    rwa [h3] at h
  unfold round2
  constructor
  · have hc : (0 : ℚ) ≤ ((round (100 * x) : ℤ) : ℚ) := by exact_mod_cast hl
    exact div_nonneg hc (by norm_num)
  · have hc : ((round (100 * x) : ℤ) : ℚ) ≤ 10000 := by exact_mod_cast hu
    linarith

lemma thresholdCore_cases (rule : PermissionRule) (score : ℚ)
    (status : List (List Char × Bool)) :
    (thresholdCore rule score status).1 = "grant".data
        ∧ (thresholdCore rule score status).2.1 = 85 / 100
      ∨ (thresholdCore rule score status).1 = "create_ticket".data
        ∧ ((thresholdCore rule score status).2.1 = 7 / 10
           ∨ (thresholdCore rule score status).2.1 = 75 / 100
           ∨ (thresholdCore rule score status).2.1 = 8 / 10) := by
  unfold thresholdCore
  by_cases h1 : AUTO_GRANT_THRESHOLD ≤ score ∧ rule.auto_grant_enabled = true <;>
    by_cases h2 : ((status.length : ℚ) * (8 / 10) ≤ (metCount status : ℚ)) <;>
      by_cases h3 : REQUIRE_APPROVAL_THRESHOLD ≤ score <;>
        simp [h1, h2, h3]

lemma makeRuleBasedDecision_bounds (rule : PermissionRule) (score : ℚ)
    (status : List (List Char × Bool)) (similar : List Bool)
    (aiEnhanced : Option (List Char)) :
    ((makeRuleBasedDecision rule score status similar aiEnhanced).decision
        = "grant".data
      ∨ (makeRuleBasedDecision rule score status similar aiEnhanced).decision
        = "create_ticket".data)
    ∧ 7 / 10 ≤ (makeRuleBasedDecision rule score status similar aiEnhanced).confidence
    ∧ (makeRuleBasedDecision rule score status similar aiEnhanced).confidence
        ≤ 95 / 100 := by
  unfold makeRuleBasedDecision
  rcases thresholdCore_cases rule score status with ⟨hd, hc⟩ | ⟨hd, hc⟩
  · simp only [hd, hc]
    split_ifs <;> norm_num [min_def]
  · simp only [hd]
    rcases hc with hc | hc | hc <;> simp only [hc] <;>
      split_ifs <;> norm_num [min_def]

/-- A row whose exception scenario blocks contractors. -/
def rowContractor : ConfigurationRow :=
  { rowBase with
      role := some "analyst".data
      application := some "appx".data
      exception_scenario := some "Not permitted for contractors".data
      match_score := 3 }

/-- A contractor user. -/
def ctxContractor : UserContext :=
  { ctxBase with
      role := some "Analyst".data
      employee_type := some "Contractor".data }

/-- A reasoning-service response that tries to grant with full confidence. -/
def aiRespGrant : AIResponse :=
  { decision := some "grant".data, reasoning := none, confidence := some 1,
    missing_info := [] }

/-- A reasoning-service response whose decision string is outside the
four-outcome set. -/
def aiRespMaybe : AIResponse :=
  { decision := some "maybe".data, reasoning := none, confidence := some (1 / 2),
    missing_info := [] }

/-- A row requiring the training phrase: data lake access. -/
def rowLake : ConfigurationRow :=
  { rowBase with training_required := some "data lake access".data }

/-- A user who completed only: data lake basics. -/
def ctxLake : UserContext :=
  { ctxBase with completed_trainings := ["data lake basics".data] }

/-- A row whose exception scenario carves out non-engineering resources. -/
def rowNonEng : ConfigurationRow :=
  { rowBase with
      exception_scenario := some "Not permitted for non engineering resources".data }

/-- A full-time user in the Marketing department. -/
def ctxMarketing : UserContext :=
  { ctxBase with department := some "Marketing".data }

/-- Ten similar past requests of which exactly seven (70 percent) were
auto-granted. -/
def simTen : List Bool :=
  [true, true, true, true, true, true, true, false, false, false]

/-- A row matching the target role exactly but not the requested
application, with extraction match score 5. -/
def rowRoleOnly : ConfigurationRow :=
  { rowBase with
      role := some "analyst".data
      application := some "zzz".data
      match_score := 5 }

/-- A later row matching both role and application (partially), with
extraction match score 0. -/
def rowBothMatch : ConfigurationRow :=
  { rowBase with
      role := some "data analyst".data
      application := some "appx tool".data
      match_score := 0 }

/-! ## Claim theorems -/

/-- C10: for every input, the threshold (rule-based) decision path returns
an outcome in the set containing grant and create_ticket with confidence in
the interval from 0.7 to 0.95; it never returns reject or
ask_for_more_info, so a low priority score alone cannot cause rejection. -/
theorem c10_rule_based_range (rule : PermissionRule) (score : ℚ)
    (status : List (List Char × Bool)) (similar : List Bool)
    (aiEnhanced : Option (List Char)) :
    ((makeRuleBasedDecision rule score status similar aiEnhanced).decision
        = "grant".data
      ∨ (makeRuleBasedDecision rule score status similar aiEnhanced).decision
        = "create_ticket".data)
    ∧ 7 / 10 ≤ (makeRuleBasedDecision rule score status similar aiEnhanced).confidence
    ∧ (makeRuleBasedDecision rule score status similar aiEnhanced).confidence
        ≤ 95 / 100 :=
  makeRuleBasedDecision_bounds rule score status similar aiEnhanced

/-- C3: the threshold fallback returns grant with confidence 0.85 when the
score reaches AUTO_GRANT_THRESHOLD, auto-grant is enabled and at least 80
percent of prerequisites are met; create_ticket with confidence 0.70 when
the prerequisite share is below 80 percent; create_ticket with confidence
0.75 when only REQUIRE_APPROVAL_THRESHOLD is reached; and create_ticket
with confidence 0.80 otherwise. -/
theorem c3_threshold_fallback (rule : PermissionRule) (score : ℚ)
    (status : List (List Char × Bool)) :
    (AUTO_GRANT_THRESHOLD ≤ score → rule.auto_grant_enabled = true →
      (((4 / 5 : ℚ) * (status.length : ℚ) ≤ (metCount status : ℚ) →
        (thresholdCore rule score status).1 = "grant".data
          ∧ (thresholdCore rule score status).2.1 = 85 / 100)
      ∧ ((metCount status : ℚ) < (4 / 5 : ℚ) * (status.length : ℚ) →
        (thresholdCore rule score status).1 = "create_ticket".data
          ∧ (thresholdCore rule score status).2.1 = 7 / 10)))
    ∧ (¬ (AUTO_GRANT_THRESHOLD ≤ score ∧ rule.auto_grant_enabled = true) →
        REQUIRE_APPROVAL_THRESHOLD ≤ score →
        (thresholdCore rule score status).1 = "create_ticket".data
          ∧ (thresholdCore rule score status).2.1 = 75 / 100)
    ∧ (score < REQUIRE_APPROVAL_THRESHOLD →
        (thresholdCore rule score status).1 = "create_ticket".data
          ∧ (thresholdCore rule score status).2.1 = 8 / 10) := by
  refine ⟨fun hs ha => ⟨fun hm => ?_, fun hm => ?_⟩, fun hn hr => ?_, fun hl => ?_⟩ <;>
    unfold thresholdCore
  · rw [if_pos ⟨hs, ha⟩, if_pos (by linarith)]
    exact ⟨rfl, rfl⟩
  · rw [if_pos ⟨hs, ha⟩, if_neg (by intro hc; linarith)]
    exact ⟨rfl, rfl⟩
  · rw [if_neg hn, if_pos hr]
    exact ⟨rfl, rfl⟩
  · have h80 : ¬ (AUTO_GRANT_THRESHOLD ≤ score ∧ rule.auto_grant_enabled = true) := by
      intro h
      have h1 := h.1
      unfold AUTO_GRANT_THRESHOLD at h1
      unfold REQUIRE_APPROVAL_THRESHOLD at hl
      linarith
    rw [if_neg h80, if_neg (not_le.mpr hl)]
    exact ⟨rfl, rfl⟩

/-- Witness for C3: a score of 85 on an auto-grantable rule with its one
prerequisite met yields grant with confidence 0.85. -/
theorem c3_witness :
    (thresholdCore ruleHigh 85 [("a".data, true)]).1 = "grant".data
      ∧ (thresholdCore ruleHigh 85 [("a".data, true)]).2.1 = 85 / 100 :=
  ((c3_threshold_fallback ruleHigh 85 [("a".data, true)]).1
    (by norm_num [AUTO_GRANT_THRESHOLD]) rfl).1 (by norm_num [metCount])

/-- C4: the priority score equals the clamped, 2-decimal-rounded sum of the
base 50, 30 times the met ratio, the priority bonus (20 high, 10 medium, 0
low; the effective level is medium when the raw level is unset), 10 when
the user holds any current permission, and 10 when the rule enables
auto-grant; the met ratio is 0 for zero prerequisites. -/
theorem c4_priority_score_formula (rule : PermissionRule) (ctx : UserContext)
    (status : List (List Char × Bool)) :
    (priorityLevelEff rule = "high".data →
      calculatePriorityScore rule ctx status =
        round2 (clamp0100 (50 + 30 * metRatio status + 20
          + (if ctx.current_permissions ≠ [] then 10 else 0)
          + (if rule.auto_grant_enabled then 10 else 0))))
    ∧ (priorityLevelEff rule = "medium".data →
      calculatePriorityScore rule ctx status =
        round2 (clamp0100 (50 + 30 * metRatio status + 10
          + (if ctx.current_permissions ≠ [] then 10 else 0)
          + (if rule.auto_grant_enabled then 10 else 0))))
    ∧ (priorityLevelEff rule = "low".data →
      calculatePriorityScore rule ctx status =
        round2 (clamp0100 (50 + 30 * metRatio status + 0
          + (if ctx.current_permissions ≠ [] then 10 else 0)
          + (if rule.auto_grant_enabled then 10 else 0)))) := by
  refine ⟨fun h => ?_, fun h => ?_, fun h => ?_⟩ <;>
    rw [calculatePriorityScore_eq] <;> unfold scoreBonus <;> rw [h]
  · rw [if_pos rfl]
    congr 1
    unfold clamp0100
    congr 2
    ring
  · rw [if_neg (by decide), if_pos rfl]
    congr 1
    unfold clamp0100
    congr 2
    ring
  · rw [if_neg (by decide), if_neg (by decide), if_pos rfl]
    congr 1
    unfold clamp0100
    congr 2
    ring

/-- Witness for C4: a high-priority auto-grant rule, a permission-holding
user and one of two prerequisites met evaluate exactly to the formula. -/
theorem c4_witness :
    calculatePriorityScore ruleHigh
        { ctxBase with current_permissions := ["x".data] }
        [("a".data, true), ("b".data, false)] =
      round2 (clamp0100 (50
        + 30 * metRatio [("a".data, true), ("b".data, false)] + 20
        + (if ({ ctxBase with current_permissions := ["x".data] } :
            UserContext).current_permissions ≠ [] then 10 else 0)
        + (if ruleHigh.auto_grant_enabled then 10 else 0))) :=
  (c4_priority_score_formula ruleHigh
    { ctxBase with current_permissions := ["x".data] }
    [("a".data, true), ("b".data, false)]).1 (by decide)

/-- C9: for fixed rule and user context the priority score is monotone
non-decreasing in the fraction of prerequisites met, and always lies in
the interval from 0 to 100. -/
theorem c9_score_monotone_bounded (rule : PermissionRule) (ctx : UserContext)
    (s1 s2 : List (List Char × Bool)) (h : metRatio s1 ≤ metRatio s2) :
    calculatePriorityScore rule ctx s1 ≤ calculatePriorityScore rule ctx s2
      ∧ 0 ≤ calculatePriorityScore rule ctx s1
      ∧ calculatePriorityScore rule ctx s1 ≤ 100 := by
  rw [calculatePriorityScore_eq, calculatePriorityScore_eq]
  refine ⟨round2_mono (clamp0100_mono (by linarith)), ?_⟩
  exact round2_bounds (clamp0100_bounds _).1 (clamp0100_bounds _).2

/-- Witness for C9: a zero-met status against a fully-met one. -/
theorem c9_witness :
    metRatio [("a".data, false)] ≤ metRatio [("a".data, true)]
      ∧ (calculatePriorityScore ruleHigh ctxBase [("a".data, false)]
          ≤ calculatePriorityScore ruleHigh ctxBase [("a".data, true)]
        ∧ 0 ≤ calculatePriorityScore ruleHigh ctxBase [("a".data, false)]
        ∧ calculatePriorityScore ruleHigh ctxBase [("a".data, false)] ≤ 100) :=
  ⟨by norm_num [metRatio, metCount],
   c9_score_monotone_bounded ruleHigh ctxBase [("a".data, false)]
     [("a".data, true)] (by norm_num [metRatio, metCount])⟩

lemma bestMatchingRow_nil (perm : List Char) (ctx : UserContext) :
    bestMatchingRow perm ctx [] = none := rfl

/-- C1: when the best-matching row reports an exception violation or a
required-but-unmatched training, the decision is reject with confidence
exactly 0.95 (hence at least 0.9), for every reasoning-service
configuration and response — so no AI or threshold output can override
the mandatory-validation short-circuit. -/
theorem c1_mandatory_short_circuit (useAI : Bool) (aiResponse : Option AIResponse)
    (rows : List ConfigurationRow) (rule : PermissionRule) (score : ℚ)
    (status : List (List Char × Bool)) (ctx : UserContext) (similar : List Bool)
    (perm : List Char) (aiEnhanced : Option (List Char)) (row : ConfigurationRow)
    (hbest : bestMatchingRow perm ctx rows = some row)
    (hviol : (validateRowAgainstUserContext row ctx).exception_violated = true
      ∨ (trainingPresentB row = true
         ∧ (validateRowAgainstUserContext row ctx).training_match = false)) :
    (makeDecision useAI aiResponse rows rule score status ctx similar perm
        aiEnhanced).decision = "reject".data
    ∧ (makeDecision useAI aiResponse rows rule score status ctx similar perm
        aiEnhanced).confidence = 95 / 100 := by
  have hne : rows ≠ [] := by
    intro hnil
    rw [hnil, bestMatchingRow_nil] at hbest
    cases hbest
  have hcr : criticalReasons row ctx ≠ [] := by
    unfold criticalReasons
    rcases hviol with hv | ⟨ht, hm⟩
    · simp [hv]
    · simp [ht, hm]
  obtain ⟨r, rs, h2⟩ : ∃ r rs, criticalReasons row ctx = r :: rs := by
    cases hcc : criticalReasons row ctx with
    | nil => exact absurd hcc hcr
    | cons a b => exact ⟨a, b, rfl⟩
  have hck : checkMasterTrackerValidation perm ctx rows
      = some ⟨"reject".data, r, 95 / 100⟩ := by
    unfold checkMasterTrackerValidation
    rw [if_neg hne]
    simp only [hbest, h2]
  unfold makeDecision
  rw [hck]
  exact ⟨rfl, rfl⟩

/-- Witness for C1: a contractor best-matched to a contractor-blocking row
is rejected at confidence 0.95 even though the reasoning service is
enabled and answers grant with confidence 1. -/
theorem c1_witness :
    (makeDecision true (some aiRespGrant) [rowContractor] ruleHigh 90 []
        ctxContractor [] "appx - analyst".data none).decision = "reject".data
    ∧ (makeDecision true (some aiRespGrant) [rowContractor] ruleHigh 90 []
        ctxContractor [] "appx - analyst".data none).confidence = 95 / 100 :=
  c1_mandatory_short_circuit true (some aiRespGrant) [rowContractor] ruleHigh
    90 [] ctxContractor [] "appx - analyst".data none rowContractor
    (by decide) (Or.inl (by decide))

lemma checkMasterTrackerValidation_some (perm : List Char) (ctx : UserContext)
    (rows : List ConfigurationRow) (out : DecisionOut)
    (h : checkMasterTrackerValidation perm ctx rows = some out) :
    out.decision = "reject".data ∧ out.confidence = 95 / 100 := by
  unfold checkMasterTrackerValidation at h
  split_ifs at h
  cases hb : bestMatchingRow perm ctx rows with
  | none =>
    simp only [hb] at h
    cases h
  | some row =>
    cases hc : criticalReasons row ctx with
    | nil =>
      simp only [hb, hc] at h
      cases h
    | cons r rs =>
      simp only [hb, hc, Option.some.injEq] at h
      rw [← h]
      exact ⟨rfl, rfl⟩

lemma makeDecision_cases (useAI : Bool) (aiResponse : Option AIResponse)
    (rows : List ConfigurationRow) (rule : PermissionRule) (score : ℚ)
    (status : List (List Char × Bool)) (ctx : UserContext) (similar : List Bool)
    (perm : List Char) (aiEnhanced : Option (List Char)) :
    (0 ≤ (makeDecision useAI aiResponse rows rule score status ctx similar perm
          aiEnhanced).confidence
      ∧ (makeDecision useAI aiResponse rows rule score status ctx similar perm
          aiEnhanced).confidence ≤ 1)
    ∧ ((makeDecision useAI aiResponse rows rule score status ctx similar perm
          aiEnhanced).decision ∈ fourOutcomes
      ∨ (useAI = true ∧ ∃ resp, aiResponse = some resp
          ∧ (makeDecision useAI aiResponse rows rule score status ctx similar
              perm aiEnhanced).decision = resp.decision.getD "create_ticket".data)) := by
  cases hck : checkMasterTrackerValidation perm ctx rows with
  | some rejection =>
    have heq : makeDecision useAI aiResponse rows rule score status ctx similar
        perm aiEnhanced = rejection := by
      unfold makeDecision
      rw [hck]
    obtain ⟨hd, hc⟩ := checkMasterTrackerValidation_some perm ctx rows rejection hck
    rw [heq, hd, hc]
    exact ⟨⟨by norm_num, by norm_num⟩, Or.inl (by decide)⟩
  | none =>
    have heq : makeDecision useAI aiResponse rows rule score status ctx similar
        perm aiEnhanced =
        (if useAI = true then
          makeAiDecision aiResponse rule score status similar aiEnhanced
        else makeRuleBasedDecision rule score status similar aiEnhanced) := by
      unfold makeDecision
      rw [hck]
    rw [heq]
    cases useAI with
    | false =>
      rw [if_neg Bool.false_ne_true]
      obtain ⟨hd, hc1, hc2⟩ :=
        makeRuleBasedDecision_bounds rule score status similar aiEnhanced
      refine ⟨⟨by linarith, by linarith⟩, Or.inl ?_⟩
      rcases hd with hd | hd <;> rw [hd] <;> decide
    | true =>
      rw [if_pos rfl]
      cases aiResponse with
      | none =>
        simp only [makeAiDecision]
        obtain ⟨hd, hc1, hc2⟩ :=
          makeRuleBasedDecision_bounds rule score status similar aiEnhanced
        refine ⟨⟨by linarith, by linarith⟩, Or.inl ?_⟩
        rcases hd with hd | hd <;> rw [hd] <;> decide
      | some resp =>
        simp only [makeAiDecision]
        exact ⟨⟨le_min (by norm_num) (le_max_left 0 _), min_le_left _ _⟩,
          Or.inr ⟨by trivial, resp, rfl, rfl⟩⟩

/-- C2 as amended: every evaluation returns a confidence in the unit
interval, and the outcome is one of the four allowed strings on every path
except the reasoning-service pass-through, where it is exactly the decision
string of the parsed response (default create_ticket when absent), which
the engine does not validate against the four-outcome set. -/
theorem c2_outcomes_confidence (ctx : UserContext) (rtype perm : List Char)
    (contextual : Option ContextualUnderstanding)
    (ruleLookup : Option PermissionRule) (rows : List ConfigurationRow)
    (similar : List Bool) (useAI : Bool) (aiResponse : Option AIResponse)
    (aiEnhanced : Option (List Char)) :
    (0 ≤ (evaluateRequest ctx rtype perm contextual ruleLookup rows similar
          useAI aiResponse aiEnhanced).confidence
      ∧ (evaluateRequest ctx rtype perm contextual ruleLookup rows similar
          useAI aiResponse aiEnhanced).confidence ≤ 1)
    ∧ ((evaluateRequest ctx rtype perm contextual ruleLookup rows similar
          useAI aiResponse aiEnhanced).decision ∈ fourOutcomes
      ∨ (useAI = true ∧ ∃ resp, aiResponse = some resp
          ∧ (evaluateRequest ctx rtype perm contextual ruleLookup rows similar
              useAI aiResponse aiEnhanced).decision
            = resp.decision.getD "create_ticket".data)) := by
  unfold evaluateRequest
  exact makeDecision_cases _ _ _ _ _ _ _ _ _ _

/-- Counterexample to C2 as stated: with no extracted rows and an enabled
reasoning service answering the out-of-set decision string maybe, the
evaluation returns maybe, which is none of the four outcomes. -/
theorem c2_counterexample :
    ¬ ((evaluateRequest ctxBase "t".data "perm".data none (some ruleHigh) [] []
        true (some aiRespMaybe) none).decision ∈ fourOutcomes) := by
  decide

/-- Counterexample to C5 as stated: for required training data lake access
against the sole completed training data lake basics, the engine reports a
match (the shared words data and lake have length 4, hence are significant
for the implemented length > 3 cut-off), while the claim with its length >
4 cut-off reports a non-match. -/
theorem c5_counterexample :
    trainingPresentB rowLake = true
    ∧ (validateRowAgainstUserContext rowLake ctxLake).training_match = true
    ∧ trainingMatchClaimC5 (trainingRequiredEff rowLake)
        ctxLake.completed_trainings = false := by
  decide

/-- C5 as amended: for a present required training, the engine's training
match is exactly the claim's predicate with significant words of length
strictly greater than 3 (at least 4 characters) and the word-overlap and
subset clauses applied only when both significant-word sets are non-empty;
with no completed trainings the match fails and the row is invalid. -/
theorem c5_training_match (row : ConfigurationRow) (ctx : UserContext)
    (hp : trainingPresentB row = true) :
    (validateRowAgainstUserContext row ctx).training_match
      = trainingMatchAmended (trainingRequiredEff row) ctx.completed_trainings
    ∧ (effCompletedTrainings ctx = [] →
        (validateRowAgainstUserContext row ctx).training_match = false
        ∧ (validateRowAgainstUserContext row ctx).is_valid = false) := by
  have hamend : trainingMatchAmended (trainingRequiredEff row) ctx.completed_trainings
      = (effCompletedTrainings ctx).any
          (trainingMatchOne (lowerL (trainingRequiredEff row))) := rfl
  constructor
  · simp only [validateRowAgainstUserContext, hamend, hp]
    cases hc : effCompletedTrainings ctx with
    | nil => simp
    | cons t ts => simp
  · intro hc
    simp only [validateRowAgainstUserContext, hp, hc]
    simp

/-- Witness for C5 as amended: the counterexample inputs instantiate the
amended statement. -/
theorem c5_witness :
    (validateRowAgainstUserContext rowLake ctxLake).training_match
      = trainingMatchAmended (trainingRequiredEff rowLake)
          ctxLake.completed_trainings
    ∧ (effCompletedTrainings ctxLake = [] →
        (validateRowAgainstUserContext rowLake ctxLake).training_match = false
        ∧ (validateRowAgainstUserContext rowLake ctxLake).is_valid = false) :=
  c5_training_match rowLake ctxLake (by decide)

/-- Counterexample to C6 as stated: the scenario contains the department
carve-out non engineering and the user department marketing does not match
engineering, so the claim's generalized trigger fires, yet the engine
reports no exception violation — the source implements the carve-out only
for the literal text non finance. -/
theorem c6_counterexample :
    exceptionPresentB rowNonEng = true
    ∧ specNonDeptTrigger (lowerL (exceptionScenarioEff rowNonEng))
        (effDepartment ctxMarketing)
    ∧ (validateRowAgainstUserContext rowNonEng ctxMarketing).exception_violated
        = false :=
  ⟨by decide, ⟨"engineering".data, by decide, by decide, by decide⟩, by decide⟩

/-- C6 as amended: for a present exception scenario, exception_violated is
set exactly when one of the implemented keyword triggers fires — contractor
against contractor or external employee types, intern against intern,
external against external or contractor, or the literal carve-out non
finance against a department not containing finance — and any violation
forces is_valid to false. -/
theorem c6_exception_triggers (row : ConfigurationRow) (ctx : UserContext)
    (hp : exceptionPresentB row = true) :
    ((validateRowAgainstUserContext row ctx).exception_violated = true ↔
      ((inStr "contractor".data (lowerL (exceptionScenarioEff row)) = true
        ∧ (inStr "contractor".data (effEmployeeType ctx) = true
           ∨ inStr "external".data (effEmployeeType ctx) = true))
      ∨ (inStr "intern".data (lowerL (exceptionScenarioEff row)) = true
        ∧ inStr "intern".data (effEmployeeType ctx) = true)
      ∨ (inStr "external".data (lowerL (exceptionScenarioEff row)) = true
        ∧ (inStr "external".data (effEmployeeType ctx) = true
           ∨ inStr "contractor".data (effEmployeeType ctx) = true))
      ∨ (inStr "non finance".data (lowerL (exceptionScenarioEff row)) = true
        ∧ inStr "finance".data (effDepartment ctx) = false)))
    ∧ ((validateRowAgainstUserContext row ctx).exception_violated = true →
        (validateRowAgainstUserContext row ctx).is_valid = false) := by
  constructor
  · simp only [validateRowAgainstUserContext, hp]
    simp [Bool.or_eq_true, Bool.and_eq_true, Bool.not_eq_true']
    tauto
  · intro hv
    simp only [validateRowAgainstUserContext] at hv ⊢
    rw [hv]
    simp

/-- Witness for C6 as amended: the contractor row and contractor user of
the C1 scenario instantiate the amended equivalence. -/
theorem c6_witness :
    (validateRowAgainstUserContext rowContractor ctxContractor).exception_violated
      = true
    ∧ (validateRowAgainstUserContext rowContractor ctxContractor).is_valid
      = false :=
  ⟨((c6_exception_triggers rowContractor ctxContractor (by decide)).1).mpr
    (Or.inl ⟨by decide, Or.inl (by decide)⟩),
   (c6_exception_triggers rowContractor ctxContractor (by decide)).2
    (((c6_exception_triggers rowContractor ctxContractor (by decide)).1).mpr
      (Or.inl ⟨by decide, Or.inl (by decide)⟩))⟩

/-- C8 as amended: the historical adjustment adds 0.1 to the confidence
exactly when the similar-request list is non-empty, STRICTLY more than 70
percent of it was auto-granted, and the threshold outcome is grant; the
result is capped at 1.0 and the outcome itself is never changed. -/
theorem c8_historical_adjustment (rule : PermissionRule) (score : ℚ)
    (status : List (List Char × Bool)) (similar : List Bool)
    (aiEnhanced : Option (List Char)) :
    (makeRuleBasedDecision rule score status similar aiEnhanced).decision
      = (thresholdCore rule score status).1
    ∧ (makeRuleBasedDecision rule score status similar aiEnhanced).confidence
      = min 1 (if (similar ≠ []
            ∧ (similar.length : ℚ) * (7 / 10)
              < ((similar.filter (· = true)).length : ℚ))
            ∧ (thresholdCore rule score status).1 = "grant".data
          then (thresholdCore rule score status).2.1 + 1 / 10
          else (thresholdCore rule score status).2.1) := by
  unfold makeRuleBasedDecision
  exact ⟨rfl, rfl⟩

/-- Counterexample to C8 as stated: with exactly 70 percent of ten similar
requests auto-granted and a grant outcome, the engine leaves the
confidence at 0.85, while the claim (at least 70 percent) predicts the
adjustment to 0.95 — the source requires strictly more than 70 percent. -/
theorem c8_counterexample :
    ((7 : ℚ) / 10) * (simTen.length : ℚ)
        ≤ ((simTen.filter (· = true)).length : ℚ)
    ∧ (makeRuleBasedDecision ruleHigh 85 [("a".data, true)] simTen
        none).decision = "grant".data
    ∧ (makeRuleBasedDecision ruleHigh 85 [("a".data, true)] simTen
        none).confidence = 85 / 100 := by
  have hcore : thresholdCore ruleHigh 85 [("a".data, true)]
      = ("grant".data, 85 / 100,
         "High priority score and most pre-requisites met".data) := by
    unfold thresholdCore
    rw [if_pos ⟨by norm_num [AUTO_GRANT_THRESHOLD], rfl⟩,
      if_pos (by norm_num [metCount])]
  refine ⟨by norm_num [simTen, List.filter], ?_, ?_⟩
  · unfold makeRuleBasedDecision
    rw [hcore]
  · norm_num [makeRuleBasedDecision, hcore, simTen, List.filter, min_def]

lemma bothMatchesB_role {targetRole requestedApp : List Char}
    {r : ConfigurationRow} (h : bothMatchesB targetRole requestedApp r = true) :
    roleMatchesB targetRole r = true := by
  unfold bothMatchesB at h
  simp only [Bool.and_eq_true] at h
  exact h.1

lemma bothMatchesB_app {targetRole requestedApp : List Char}
    {r : ConfigurationRow} (h : bothMatchesB targetRole requestedApp r = true) :
    appMatchesB requestedApp r = true := by
  unfold bothMatchesB at h
  simp only [Bool.and_eq_true] at h
  exact h.2

lemma bothMatchesB_of_parts {targetRole requestedApp : List Char}
    {r : ConfigurationRow} (h1 : roleMatchesB targetRole r = true)
    (h2 : appMatchesB requestedApp r = true) :
    bothMatchesB targetRole requestedApp r = true := by
  unfold bothMatchesB
  simp only [Bool.and_eq_true]
  exact ⟨h1, h2⟩

lemma combinedScore_nonneg (targetRole requestedApp : List Char)
    (r : ConfigurationRow) : 0 ≤ combinedScore targetRole requestedApp r := by
  simp only [combinedScore]
  split_ifs <;> omega

lemma neg_one_lt_combinedScore (targetRole requestedApp : List Char)
    (r : ConfigurationRow) : (-1 : ℤ) < combinedScore targetRole requestedApp r :=
  lt_of_lt_of_le (by norm_num) (combinedScore_nonneg targetRole requestedApp r)

lemma selectBestAux_some (targetRole requestedApp : List Char)
    (l : List ConfigurationRow) :
    ∀ (b : ConfigurationRow) (bs : ℤ),
      selectBestAux targetRole requestedApp l (some b) bs
        = some (firstMaxAux (combinedScore targetRole requestedApp)
            (l.filter (fun r => bothMatchesB targetRole requestedApp r)) b bs) := by
  induction l with
  | nil => intro b bs; rfl
  | cons x xs ih =>
    intro b bs
    by_cases hb : bothMatchesB targetRole requestedApp x = true
    · have hr := bothMatchesB_role hb
      have ha := bothMatchesB_app hb
      rw [List.filter_cons_of_pos hb]
      by_cases hlt : bs < combinedScore targetRole requestedApp x
      · simp only [selectBestAux]
        rw [if_pos ⟨hr, ha, hlt⟩]
        simp only [firstMaxAux]
        rw [if_pos hlt]
        exact ih x (combinedScore targetRole requestedApp x)
      · simp only [selectBestAux]
        rw [if_neg (fun hcon => hlt hcon.2.2),
          if_neg (fun hcon => by simpa using hcon.1)]
        simp only [firstMaxAux]
        rw [if_neg hlt]
        exact ih b bs
    · rw [List.filter_cons_of_neg hb]
      simp only [selectBestAux]
      rw [if_neg (fun hcon => hb (bothMatchesB_of_parts hcon.1 hcon.2.1)),
        if_neg (fun hcon => by simpa using hcon.1)]
      exact ih b bs

lemma selectBestAux_none (targetRole requestedApp : List Char)
    (l : List ConfigurationRow) :
    selectBestAux targetRole requestedApp l none (-1)
      = match candidatesOf targetRole requestedApp l with
        | [] => none
        | c :: cs => some (firstMaxAux (combinedScore targetRole requestedApp)
            cs c (combinedScore targetRole requestedApp c)) := by
  induction l with
  | nil => rfl
  | cons x xs ih =>
    by_cases hr : roleMatchesB targetRole x = true
    · have hcand : candidatesOf targetRole requestedApp (x :: xs)
          = x :: xs.filter (fun r => bothMatchesB targetRole requestedApp r) := by
        unfold candidatesOf
        rw [List.find?_cons_of_pos _ hr]
        dsimp only
        by_cases hb : bothMatchesB targetRole requestedApp x = true
        · rw [if_pos hb, List.filter_cons_of_pos hb]
        · rw [if_neg hb, List.filter_cons_of_neg hb]
      have hL : selectBestAux targetRole requestedApp (x :: xs) none (-1)
          = some (firstMaxAux (combinedScore targetRole requestedApp)
              (xs.filter (fun r => bothMatchesB targetRole requestedApp r)) x
              (combinedScore targetRole requestedApp x)) := by
        by_cases hb : bothMatchesB targetRole requestedApp x = true
        · simp only [selectBestAux]
          rw [if_pos ⟨hr, bothMatchesB_app hb,
            neg_one_lt_combinedScore targetRole requestedApp x⟩]
          exact selectBestAux_some targetRole requestedApp xs x _
        · simp only [selectBestAux]
          rw [if_neg (fun hcon => hb (bothMatchesB_of_parts hcon.1 hcon.2.1)),
            if_pos ⟨rfl, hr, neg_one_lt_combinedScore targetRole requestedApp x⟩]
          exact selectBestAux_some targetRole requestedApp xs x _
      rw [hL, hcand]
    · have hrf : roleMatchesB targetRole x ≠ true := hr
      have hboth : ¬ bothMatchesB targetRole requestedApp x = true :=
        fun hcon => hr (bothMatchesB_role hcon)
      have hcand : candidatesOf targetRole requestedApp (x :: xs)
          = candidatesOf targetRole requestedApp xs := by
        unfold candidatesOf
        rw [List.find?_cons_of_neg _ hrf]
        cases hf : List.find? (fun r => roleMatchesB targetRole r) xs with
        | none => rfl
        | some r0 =>
          dsimp only
          rw [List.filter_cons_of_neg hboth]
      have hL : selectBestAux targetRole requestedApp (x :: xs) none (-1)
          = selectBestAux targetRole requestedApp xs none (-1) := by
        simp only [selectBestAux]
        rw [if_neg (fun hcon => hr hcon.1), if_neg (fun hcon => hr hcon.2.1)]
      rw [hL, hcand, ih]

/-- C7 as amended: the selection scans the extracted rows keeping the first
role-matching row and thereafter replacing it only with rows matching both
role and application whose combined score strictly exceeds the current
best; equivalently, the result is the earliest maximal-combined-score
element among the first role-matching row and all rows matching both, and
when no row matches the role it is the first (highest match_score) row. A
row matching both role and application is therefore NOT always preferred
over an earlier role-only row with a higher combined score. -/
theorem c7_best_row_selection (targetRole requestedApp : List Char)
    (rows : List ConfigurationRow) :
    selectBestRow targetRole requestedApp rows
      = match candidatesOf targetRole requestedApp rows with
        | [] => rows.head?
        | c :: cs => some (firstMaxAux (combinedScore targetRole requestedApp)
            cs c (combinedScore targetRole requestedApp c)) := by
  unfold selectBestRow
  rw [selectBestAux_none targetRole requestedApp rows]
  cases hc : candidatesOf targetRole requestedApp rows with
  | nil => rfl
  | cons c cs => rfl

/-- Counterexample to C7 as stated: on a match-score-sorted candidate list
whose first row matches the role only (combined score 15) and whose second
row matches both role and application (combined score 10), the selection
keeps the role-only row — a row matching both is NOT preferred over every
row matching role only. -/
theorem c7_counterexample :
    selectBestRow "analyst".data "appx".data [rowRoleOnly, rowBothMatch]
        = some rowRoleOnly
    ∧ roleMatchesB "analyst".data rowRoleOnly = true
    ∧ appMatchesB "appx".data rowRoleOnly = false
    ∧ bothMatchesB "analyst".data "appx".data rowBothMatch = true := by
  decide
